import Mathlib

/-!
Verification of the Launch-Weather Correlation Engine (`src/MCP/src/Helper.ts`).

Shallow embedding conventions:
* JavaScript numbers are modelled as `ℚ` where the code only does field
  arithmetic and comparisons, and as `ℝ` where trigonometric functions are
  involved (the haversine distance).
* Epoch timestamps are `Int` (seconds or milliseconds as in the source);
  the UTC day key `toISOString().split('T')[0]` is modelled by the day
  number `⌊t / 86400⌋`, which determines the `YYYY-MM-DD` string uniquely.
* The network is an explicit input: each attempt of the retry loop consumes
  one `FetchOutcome`, and `fetch`-returning functions take the decoded
  upstream payload (or its failure) as an argument.
-/

namespace Helper

/-! ## Resilient fetch: `makeApiRequestWithRetry` (Helper.ts lines 5-65) -/

/-- What one `fetch(url)` attempt produces: either a response carrying an
HTTP status code, or a thrown network error.  `netErr transient` with
`transient = true` models `AbortError`/`ETIMEDOUT`/`ECONNREFUSED`/`ENOTFOUND`
(the codes the `catch` block retries); `transient = false` models any other
thrown error (the `catch` block's final `else`). -/
inductive FetchOutcome where
  | resp (status : Nat)
  | netErr (transient : Bool)
deriving DecidableEq, Repr

/-- The observable outcome of `makeApiRequestWithRetry`: the status of the
returned response (`none` for the `null` returns) together with how many
`fetch` requests were issued. -/
structure RetryResult where
  response : Option Nat
  requests : Nat
deriving DecidableEq, Repr

/-- `response.ok` of the Fetch API: status in the range 200-299. -/
def statusOk (s : Nat) : Bool := 200 ≤ s && s < 300

/-- The body of the `for (let attempt = 0; attempt < maxRetries; attempt++)`
loop of `makeApiRequestWithRetry`, with `remaining = maxRetries - attempt`.
Branches in source order:
* status 429: sleep and `continue` (consumes the attempt);
* status 403: log and `return null`;
* status 401: log and `return null`;
* any other non-ok status: `throw new Error("HTTP " + status)` — the thrown
  `Error` has no `code` field and name `"Error"`, so the `catch` block's
  final `else` logs and returns `null`;
* ok status: `return response`;
* transient network error: retry while `attempt < maxRetries - 1`, else
  `return null`; any other error: `return null`. -/
def retryLoop (outcomes : Nat → FetchOutcome) : Nat → Nat → Nat → RetryResult
  | _, 0, reqs => ⟨none, reqs⟩
  | attempt, remaining + 1, reqs =>
    match outcomes attempt with
    | .resp s =>
      if s = 429 then retryLoop outcomes (attempt + 1) remaining (reqs + 1)
      else if s = 403 then ⟨none, reqs + 1⟩
      else if s = 401 then ⟨none, reqs + 1⟩
      else if statusOk s then ⟨some s, reqs + 1⟩
      else ⟨none, reqs + 1⟩
    | .netErr transient =>
      if transient then
        if remaining > 0 then retryLoop outcomes (attempt + 1) remaining (reqs + 1)
        else ⟨none, reqs + 1⟩
      else ⟨none, reqs + 1⟩

/-- `makeApiRequestWithRetry(url, maxRetries, backoffFactor)`, with the
network abstracted as the sequence `outcomes` of per-attempt results.
The backoff factor only determines sleep durations, which are not
observable in the returned value. -/
def makeApiRequestWithRetry (maxRetries : Nat) (outcomes : Nat → FetchOutcome) : RetryResult :=
  retryLoop outcomes 0 maxRetries 0

/-- The response sequence of C1's counterexample: a single HTTP 500 followed
by HTTP 200 forever. -/
def c1Outcomes : Nat → FetchOutcome :=
  fun n => if n = 0 then .resp 500 else .resp 200

/-! ## Weather forecast aggregation: `getWeatherData` (Helper.ts lines 146-267) -/

/-- One entry of the upstream `data.list` intraday feed (a 3-hour sample).
Fields the code reads without a guard (`item.main.temp`, `.feels_like`,
`.pressure`, `.humidity`, `item.dt`) are required; fields read through
optional chaining (`item.weather?.[0]`, `item.clouds?.all`, `item.wind?.*`,
`item.rain?.['3h']`, `item.snow?.['3h']`) are `Option`s. -/
structure ForecastSample where
  dt : Int
  temp : ℚ
  feels_like : ℚ
  pressure : ℚ
  humidity : ℚ
  weatherMain : Option String
  weatherDescription : Option String
  weatherIcon : Option String
  cloudsAll : Option ℚ
  windSpeed : Option ℚ
  windDeg : Option ℚ
  rain3h : Option ℚ
  snow3h : Option ℚ
deriving DecidableEq, Repr

/-- The UTC day key of an epoch-seconds timestamp
(`new Date(dt*1000).toISOString().split('T')[0]`), as a day number: the
`YYYY-MM-DD` string is uniquely determined by `⌊dt / 86400⌋`. -/
def dayNumber (dt : Int) : Int := Int.fdiv dt 86400

/-- `new Date(dt*1000).getUTCHours()` for an epoch-seconds timestamp. -/
def utcHour (dt : Int) : Int := (Int.fdiv dt 3600) % 24

/-- `Math.round` of JavaScript: `⌊x + 1/2⌋` (half-up, toward +∞). -/
def jsRound (x : ℚ) : Int := ⌊x + 1 / 2⌋

/-- `Math.round(x * 10) / 10` — rounding to 1 decimal as the code does. -/
def round1 (x : ℚ) : ℚ := (jsRound (x * 10) : ℚ) / 10

/-- `Math.min(...xs)` over a non-empty argument list modelled as head + tail. -/
def listMin (x : ℚ) (xs : List ℚ) : ℚ := xs.foldl min x

/-- `Math.max(...xs)` over a non-empty argument list modelled as head + tail. -/
def listMax (x : ℚ) (xs : List ℚ) : ℚ := xs.foldl max x

/-- The `temperature` summary of a `DailyWeather` record (the fields the
code populates: `day`, `min`, `max`, `morning`, `night`). -/
structure WeatherTemperature where
  day : ℚ
  min : ℚ
  max : ℚ
  morning : ℚ
  night : ℚ
deriving DecidableEq, Repr

/-- The `feels_like` summary of a `DailyWeather` record. -/
structure WeatherFeelsLike where
  day : ℚ
  morning : ℚ
  night : ℚ
deriving DecidableEq, Repr

/-- The representative weather descriptor (`weather.main/description/icon`). -/
structure WeatherDetails where
  main : Option String
  description : Option String
  icon : Option String
deriving DecidableEq, Repr

/-- One aggregated daily forecast.  The human-readable `date` string
(`formatDatetime(dayKey + 'T12:00:00Z')`) is pure presentation-layer
formatting of `date_raw` and is not modelled. -/
structure DailyWeather where
  date_raw : Int
  feels_like : WeatherFeelsLike
  pressure : ℚ
  humidity : ℚ
  clouds : ℚ
  wind_speed : ℚ
  wind_direction : ℚ
  precipitation : ℚ
  snow : ℚ
  weather : WeatherDetails
  temperature : WeatherTemperature
deriving DecidableEq, Repr

/-- One bucket of the `dailyMap`: the day key, the first sample pushed, and
the samples pushed after it (the value array is never empty). -/
abbrev DayBucket := Int × ForecastSample × List ForecastSample

/-- One iteration of the grouping loop (Helper.ts lines 185-193): append the
item to its day's bucket if the key is already present, else insert a new
bucket at the end (JS `Map` preserves key insertion order). -/
def addSample (buckets : List DayBucket) (item : ForecastSample) : List DayBucket :=
  let d := dayNumber item.dt
  if buckets.any (fun b => b.1 = d) then
    buckets.map (fun b => if b.1 = d then (b.1, b.2.1, b.2.2 ++ [item]) else b)
  else
    buckets ++ [(d, item, [])]

/-- `dailyMap`: group the 3-hour samples by UTC calendar day, in first-seen
key order. -/
def groupByDay (items : List ForecastSample) : List DayBucket :=
  items.foldl addSample []

/-- The body of the daily-conversion loop (Helper.ts lines 199-246) on one
non-empty bucket `s :: ss`. -/
def dailyFromBucket (dayKey : Int) (s : ForecastSample) (ss : List ForecastSample) : DailyWeather :=
  let items := s :: ss
  let temps := items.map (·.temp)
  let feelsLikes := items.map (·.feels_like)
  let minTemp := listMin s.temp (ss.map (·.temp))
  let maxTemp := listMax s.temp (ss.map (·.temp))
  let avgTemp := temps.sum / temps.length
  let middayItem :=
    (items.find? (fun i => decide (11 ≤ utcHour i.dt) && decide (utcHour i.dt ≤ 14))).getD s
  { date_raw := dayKey * 86400
    temperature :=
      { day := round1 avgTemp
        min := round1 minTemp
        max := round1 maxTemp
        morning := s.temp
        night := (ss.map (·.temp)).getLastD s.temp }
    feels_like :=
      { day := round1 (feelsLikes.sum / feelsLikes.length)
        morning := s.feels_like
        night := (ss.map (·.feels_like)).getLastD s.feels_like }
    pressure := middayItem.pressure
    humidity := middayItem.humidity
    weather :=
      { main := middayItem.weatherMain
        description := middayItem.weatherDescription
        icon := middayItem.weatherIcon }
    clouds := middayItem.cloudsAll.getD 0
    wind_speed := middayItem.windSpeed.getD 0
    wind_direction := middayItem.windDeg.getD 0
    precipitation := items.foldl (fun sum i => sum + i.rain3h.getD 0) 0
    snow := items.foldl (fun sum i => sum + i.snow3h.getD 0) 0 }

/-- The `location` block of a `WeatherForecastResult`. -/
structure WeatherLocation where
  latitude : ℚ
  longitude : ℚ
  city : Option String
  country : Option String
deriving DecidableEq, Repr

/-- The return type of `getWeatherData`. -/
structure WeatherForecastResult where
  location : WeatherLocation
  forecasts : List DailyWeather
  days_count : Nat
  error : Option String
deriving DecidableEq, Repr

/-- The decoded 2xx payload of the forecast endpoint: `data.list` (absent or
not an array ↦ `none`) and `data.city?.name` / `data.city?.country`. -/
structure ForecastPayload where
  list : Option (List ForecastSample)
  cityName : Option String
  cityCountry : Option String
deriving DecidableEq, Repr

/-- `getWeatherData(latitude, longitude, days)` with the network round trip
made explicit: `response = none` models `makeApiRequestWithRetry` returning
`null`; `some (.error e)` models `response.json()` (or later processing)
throwing, which the `catch` block turns into an error result with message
`String(err) = e`; `some (.ok data)` is a decoded 2xx payload. -/
def getWeatherData (latitude longitude : ℚ) (days : Int)
    (response : Option (Except String ForecastPayload)) : WeatherForecastResult :=
  match response with
  | none =>
    { location := ⟨latitude, longitude, none, none⟩
      forecasts := []
      days_count := 0
      error := some "Failed to fetch weather data after retries (rate limit or API issue)" }
  | some (.error e) =>
    { location := ⟨latitude, longitude, none, none⟩
      forecasts := []
      days_count := 0
      error := some e }
  | some (.ok data) =>
    match data.list with
    | none =>
      { location := ⟨latitude, longitude, data.cityName, data.cityCountry⟩
        forecasts := []
        days_count := 0
        error := some "No weather data available" }
    | some items =>
      let forecasts :=
        ((groupByDay items).take days.toNat).map (fun b => dailyFromBucket b.1 b.2.1 b.2.2)
      { location := ⟨latitude, longitude, data.cityName, data.cityCountry⟩
        forecasts := forecasts
        days_count := forecasts.length
        error := none }

/-! ## Visibility verdict (Helper.ts lines 580-619) -/

/-- The adverse-weather descriptors checked by
`['clouds', 'rain', 'thunderstorm', 'snow', 'drizzle', 'mist', 'fog'].includes(weatherMain)`. -/
def badWeatherMains : List String :=
  ["clouds", "rain", "thunderstorm", "snow", "drizzle", "mist", "fog"]

/-- `s.toLowerCase()`: the descriptors involved are ASCII, so per-character
lowering over the character list is the JS behaviour (and, unlike
`String.toLower`, it reduces definitionally). -/
def jsToLower (s : String) : String := String.mk (s.data.map Char.toLower)

/-- `s.charAt(0).toUpperCase() + s.slice(1)` (both sides empty on `""`). -/
def jsCapitalize (s : String) : String :=
  match s.data with
  | [] => ""
  | c :: cs => String.mk (c.toUpper :: cs)

/-- The visibility computation of the launch loop, on the fields read from
the matching forecast (`matchingWeather.weather?.main`, `.clouds`,
`.humidity`, `.precipitation`, `.snow`, each `|| 0` / `|| ''` defaulted by
the caller side, here already plain values).  Returns the
`visibilityStatus` string together with the `visibilityReasons` list
accumulated by the five `push` calls, in source order. -/
def visibilityVerdictOf (weatherMain : Option String)
    (clouds humidity precipitation snow : ℚ) : String × List String :=
  let wm := jsToLower (weatherMain.getD "")
  let badWeather := badWeatherMains.contains wm
  let highClouds := decide (clouds > 30)
  let highHumidity := decide (humidity > 80)
  let highPrecipitation := decide (precipitation > 5)
  let highSnow := decide (snow > 5)
  let visibilityReasons : List String :=
    (if badWeather then ["Poor weather: " ++ jsCapitalize wm] else []) ++
    (if highClouds then ["High cloud cover: " ++ toString clouds ++ "%"] else []) ++
    (if highHumidity then ["High humidity: " ++ toString humidity ++ "%"] else []) ++
    (if highPrecipitation then ["Heavy precipitation: " ++ toString precipitation ++ "mm"] else []) ++
    (if highSnow then ["Heavy snow: " ++ toString snow ++ "mm"] else [])
  let status :=
    if decide (visibilityReasons.length ≥ 3) || highSnow || (badWeather && highClouds) then
      "Not Visible"
    else if decide (visibilityReasons.length ≥ 1) then "Low Visibility"
    else "Good"
  (status, visibilityReasons)

/-- Modelled from the spec (§4.5 step 8): the reference classification.
Count the true adverse flags; status is "Not Visible" iff the count is ≥ 3
or the heavy-snow flag is true or both the poor-weather and high-cloud
flags are true, else "Low Visibility" iff at least one flag is true, else
"Good". -/
def specVisibilityStatus (weatherMain : Option String)
    (clouds humidity precipitation snow : ℚ) : String :=
  let poorWeather := badWeatherMains.contains (jsToLower (weatherMain.getD ""))
  let highCloud := decide (clouds > 30)
  let highHumidity := decide (humidity > 80)
  let heavyPrecipitation := decide (precipitation > 5)
  let heavySnow := decide (snow > 5)
  let flagCount : Nat :=
    poorWeather.toNat + highCloud.toNat + highHumidity.toNat +
      heavyPrecipitation.toNat + heavySnow.toNat
  if 3 ≤ flagCount ∨ heavySnow = true ∨ (poorWeather = true ∧ highCloud = true) then
    "Not Visible"
  else if 1 ≤ flagCount then "Low Visibility"
  else "Good"

/-! ## Specific-date resolution (Helper.ts lines 455-490) -/

/-- A parsed JavaScript `Date`, as its calendar components plus the
time-of-day in milliseconds: `year = getFullYear()`, `month = getMonth()`
(0-based), `day = getDate()`, `ms` the milliseconds since that day's
midnight.  For normalized components, comparing two `Date` timestamps is
the lexicographic order on `(year, month, day, ms)`. -/
structure JsDate where
  year : Int
  month : Nat
  day : Nat
  ms : Nat
deriving DecidableEq, Repr

/-- `d1 < d2` on `Date` timestamps, on the component representation. -/
def JsDate.before (a b : JsDate) : Bool :=
  decide (a.year < b.year) ||
    (decide (a.year = b.year) && (decide (a.month < b.month) ||
      (decide (a.month = b.month) && (decide (a.day < b.day) ||
        (decide (a.day = b.day) && decide (a.ms < b.ms))))))

/-- `/\d{4}/.test(s)` on the character list: does the string contain four
consecutive ASCII digits? -/
def hasFourDigitRun : List Char → Bool
  | c1 :: c2 :: c3 :: c4 :: rest =>
    (c1.isDigit && c2.isDigit && c3.isDigit && c4.isDigit) ||
      hasFourDigitRun (c2 :: c3 :: c4 :: rest)
  | _ => false

/-- `specificDate.match(/\d{4}/)` as a Boolean. -/
def matchesFourDigitYear (s : String) : Bool := hasFourDigitRun s.data

/-- `targetDate.setFullYear(y)`: replaces the year, keeping month, day and
time-of-day (the Feb-29 overflow, where JS normalizes into March 1, lies
outside the component model and outside the dates exercised here). -/
def setFullYear (d : JsDate) (y : Int) : JsDate := { d with year := y }

/-- Helper.ts lines 465-469: after `targetDate = new Date(specificDate)`
succeeds, `if (targetDate < now && !specificDate.match(/\d{4}/))
targetDate.setFullYear(now.getFullYear() + 1)`.  `parsed` is the date the
runtime's parser produced for `specificDate`. -/
def resolveTargetDate (parsed now : JsDate) (specificDate : String) : JsDate :=
  if parsed.before now && !matchesFourDigitYear specificDate then
    setFullYear parsed (now.year + 1)
  else parsed

/-! ## Haversine distance (Helper.ts lines 81-94) -/

/-- `Math.atan2(y, x)` on the reals (the NaN and signed-zero special cases
cannot arise from the non-negative square roots it is applied to here). -/
noncomputable def atan2 (y x : ℝ) : ℝ :=
  if 0 < x then Real.arctan (y / x)
  else if x < 0 then
    (if 0 ≤ y then Real.arctan (y / x) + Real.pi else Real.arctan (y / x) - Real.pi)
  else
    (if 0 < y then Real.pi / 2 else if y < 0 then -(Real.pi / 2) else 0)

/-- `toRad`: degrees to radians, `(deg * Math.PI) / 180`. -/
noncomputable def toRad (deg : ℝ) : ℝ := deg * Real.pi / 180

/-- `calculateDistance(lat1, lon1, lat2, lon2)`: haversine distance in km
with Earth radius `R = 6371.0`. -/
noncomputable def calculateDistance (lat1 lon1 lat2 lon2 : ℝ) : ℝ :=
  let R : ℝ := 6371
  let dLat := toRad (lat2 - lat1)
  let dLon := toRad (lon2 - lon1)
  let a := Real.sin (dLat / 2) ^ 2 +
    Real.cos (toRad lat1) * Real.cos (toRad lat2) * Real.sin (dLon / 2) ^ 2
  let c := 2 * atan2 (Real.sqrt a) (Real.sqrt (1 - a))
  R * c

/-- `Math.round` on the reals. -/
noncomputable def jsRoundR (x : ℝ) : Int := ⌊x + 1 / 2⌋

/-- `Math.round(x * 100) / 100` — rounding to 2 decimals (Helper.ts 549). -/
noncomputable def round2 (x : ℝ) : ℝ := ((jsRoundR (x * 100) : ℤ) : ℝ) / 100

/-! ## Launch filtering, sorting and decoration (Helper.ts lines 517-660) -/

/-- The fields of a catalog launch record that the Step-5 filter reads:
`net_raw` as epoch milliseconds once parsed by `new Date(launch.net_raw)`
(`none` models a null `net`), and the optional pad coordinate.  `id`
stands for the rest of the projected payload, which the filter passes
through unchanged. -/
structure LaunchIn where
  id : String
  net_raw : Option Int
  latitude : Option ℚ
  longitude : Option ℚ
deriving DecidableEq, Repr

/-- A launch surviving Step 5: the original record with `distance_km`
attached (`launch.distance_km = Math.round(distance * 100) / 100`). -/
structure LaunchOut where
  launch : LaunchIn
  distance_km : ℝ

/-- The sort key order of `nearby.sort((a, b) => (a.distance_km || 0) -
(b.distance_km || 0))`; every surviving launch has `distance_km` set, and
`x || 0` is the identity on numbers that are already `0`-defaulted. -/
def launchLE (a b : LaunchOut) : Prop := a.distance_km ≤ b.distance_km

noncomputable instance : DecidableRel launchLE :=
  fun a b => inferInstanceAs (Decidable (a.distance_km ≤ b.distance_km))

instance : IsTotal LaunchOut launchLE := ⟨fun a b => le_total a.distance_km b.distance_km⟩

instance : IsTrans LaunchOut launchLE := ⟨fun _ _ _ => le_trans⟩

/-- One iteration of the Step-5 loop (Helper.ts lines 524-552) for the
active window `[windowLo, windowHi]` in epoch ms (both the specific-date
branch `dateStart ≤ t ≤ dateEnd` and the rolling branch
`¬(t > cutoff ∨ t < startDate)` are inclusive interval tests): skip on
null `net_raw`, a launch time outside the window, or an undefined pad
coordinate; else compute the distance and keep the launch, with the
2-decimal rounded `distance_km`, iff the distance is at most
`maxDistanceKm`. -/
noncomputable def filterLaunch (qlat qlon maxDistanceKm : ℚ) (windowLo windowHi : Int)
    (l : LaunchIn) : Option LaunchOut :=
  match l.net_raw with
  | none => none
  | some t =>
    if windowLo ≤ t ∧ t ≤ windowHi then
      match l.latitude, l.longitude with
      | some lat, some lon =>
        let distance := calculateDistance (qlat : ℝ) (qlon : ℝ) (lat : ℝ) (lon : ℝ)
        if distance ≤ (maxDistanceKm : ℝ) then some ⟨l, round2 distance⟩ else none
      | _, _ => none
    else none

/-- The whole Step-5 loop: the `nearby` list before sorting. -/
noncomputable def filterLaunches (qlat qlon maxDistanceKm : ℚ) (windowLo windowHi : Int)
    (ls : List LaunchIn) : List LaunchOut :=
  ls.filterMap (filterLaunch qlat qlon maxDistanceKm windowLo windowHi)

/-- `nearby.sort(...)`: a comparison sort ascending by `distance_km`
(JS `Array.prototype.sort` is stable, as is insertion sort). -/
noncomputable def sortByDistance (ls : List LaunchOut) : List LaunchOut :=
  List.insertionSort launchLE ls

/-- The UTC day key of an epoch-milliseconds timestamp
(`new Date(t).toISOString().split('T')[0]`), as a day number. -/
def dayNumberMs (t : Int) : Int := Int.fdiv t 86400000

/-- The `weather_forecast` snapshot attached to a launch (lines 622-630). -/
structure WeatherSnapshot where
  main : Option String
  description : Option String
  clouds : ℚ
  humidity : ℚ
  precipitation : ℚ
  snow : ℚ
  temperature : WeatherTemperature
deriving DecidableEq, Repr

/-- The `visibility` block attached to a launch (lines 642-646). -/
structure Visibility where
  status : String
  can_be_seen : Bool
  reasons : List String
deriving DecidableEq, Repr

/-- A surviving launch after Step 6: the in-place mutations modelled as
attached fields. -/
structure DecoratedLaunch where
  launch : LaunchOut
  visibility : Visibility
  weather_forecast : Option WeatherSnapshot

/-- Step 6 (Helper.ts lines 557-647) for one surviving launch: match the
launch's UTC day key against the forecasts' day keys (first match wins),
derive the visibility verdict from the matching forecast, and attach the
weather snapshot; with no matching forecast the status is "Unknown"; with
a null `net_raw` the initial "Good" status survives untouched.  The
`reasons` list defaults to `['Clear conditions expected']` when empty. -/
def decorateLaunch (forecasts : List DailyWeather) (lo : LaunchOut) : DecoratedLaunch :=
  match lo.launch.net_raw with
  | none => ⟨lo, ⟨"Good", ["Good", "Low Visibility"].contains "Good",
      ["Clear conditions expected"]⟩, none⟩
  | some t =>
    match forecasts.find? (fun f => dayNumber f.date_raw == dayNumberMs t) with
    | some f =>
      let verdict := visibilityVerdictOf f.weather.main f.clouds f.humidity f.precipitation f.snow
      ⟨lo,
        ⟨verdict.1, ["Good", "Low Visibility"].contains verdict.1,
          if verdict.2.length > 0 then verdict.2 else ["Clear conditions expected"]⟩,
        some ⟨f.weather.main, f.weather.description, f.clouds, f.humidity,
          f.precipitation, f.snow, f.temperature⟩⟩
    | none =>
      ⟨lo, ⟨"Unknown", ["Good", "Low Visibility"].contains "Unknown",
        ["No weather forecast available for launch date"]⟩, none⟩

/-! ## The correlation pipeline: `getNearbyLaunches` (Helper.ts lines 436-676) -/

/-- The result of `geocodeLocation` (Helper.ts lines 271-313). -/
structure GeocodeResult where
  name : String
  local_name : String
  latitude : ℚ
  longitude : ℚ
  country : String
  state : String
deriving DecidableEq, Repr

/-- The result object of `getNearbyLaunches`: either one of the error
objects `{error, location}` or the assembled success record (`location`,
`search_params`, `launches_found`, `launches`, optional bulk `weather`,
and the `date_filter_active` flag). -/
inductive NearbyResult where
  | failure (error : String) (location : String)
  | success (location : GeocodeResult) (maxDistanceKm : ℚ) (daysAhead : Int)
      (launches_found : Nat) (launches : List DecoratedLaunch)
      (weather : Option WeatherForecastResult) (date_filter_active : Bool)

/-- The environment of one `getNearbyLaunches` call: everything the
pipeline obtains from the outside world, made explicit.  `geocode` is the
`geocodeLocation` result; `parsedDate` the runtime's `new Date(s)` parse
of the specific date (`none` for `NaN`); `now`/`nowMs` the current time as
components and epoch ms; `dayKeyOf d` the day number of
`Date.UTC(d.getFullYear(), d.getMonth(), d.getDate())` (for a UTC runtime
also the day key `toISOString` yields for `d`); `weatherResponse` the
forecast fetch outcome; `launches` the `getNextLaunch("Go", undefined,
maxResults)` output. -/
structure NearbyEnv where
  geocode : Option GeocodeResult
  parsedDate : Option JsDate
  now : JsDate
  nowMs : Int
  dayKeyOf : JsDate → Int
  weatherResponse : Option (Except String ForecastPayload)
  launches : List LaunchIn

/-- Steps 5-9 (filter, sort, decorate, assemble): shared tail of both date
branches.  The bulk `weather` block is attached iff no launch survived
(Helper.ts lines 656-660). -/
noncomputable def assembleNearby (locData : GeocodeResult) (maxDistanceKm : ℚ)
    (daysAhead : Int) (dateFilterActive : Bool) (weatherData : WeatherForecastResult)
    (launches : List LaunchIn) (windowLo windowHi : Int) : NearbyResult :=
  let nearby := sortByDistance
    (filterLaunches locData.latitude locData.longitude maxDistanceKm windowLo windowHi launches)
  let decorated := nearby.map (decorateLaunch weatherData.forecasts)
  .success locData maxDistanceKm daysAhead decorated.length decorated
    (if decorated.length = 0 then some weatherData else none) dateFilterActive

/-- `getNearbyLaunches(location, maxDistanceKm, daysAhead, maxResults,
specificDate)`.  Geocode failure short-circuits to the
"Location not found" error object; an unparseable specific date to the
"Invalid date format" error object.  With a specific date the pipeline
requests 16 forecast days, filters the forecasts to the target day, and
uses that day's UTC window; otherwise it requests `daysAhead` days and
uses the rolling window `[now, now + daysAhead·86400000]`. -/
noncomputable def getNearbyLaunches (location : String) (maxDistanceKm : ℚ)
    (daysAhead : Int) (specificDate : Option String) (env : NearbyEnv) : NearbyResult :=
  match env.geocode with
  | none => .failure ("Location not found: " ++ location) location
  | some locData =>
    match specificDate with
    | none =>
      let weatherData :=
        getWeatherData locData.latitude locData.longitude daysAhead env.weatherResponse
      assembleNearby locData maxDistanceKm daysAhead false weatherData env.launches
        env.nowMs (env.nowMs + daysAhead * 86400000)
    | some s =>
      match env.parsedDate with
      | none =>
        .failure ("Invalid date format: " ++ s ++ ". Try \x22Nov 10\x22 or \x222025-11-10\x22")
          location
      | some parsed =>
        let target := resolveTargetDate parsed env.now s
        let targetDay := env.dayKeyOf target
        let weatherData0 :=
          getWeatherData locData.latitude locData.longitude 16 env.weatherResponse
        let filtered := weatherData0.forecasts.filter (fun f => dayNumber f.date_raw == targetDay)
        let weatherData :=
          { weatherData0 with forecasts := filtered, days_count := filtered.length }
        assembleNearby locData maxDistanceKm daysAhead true weatherData env.launches
          (targetDay * 86400000) (targetDay * 86400000 + 86399999)

end Helper

/-- C1 (counterexample): the claim says that with `maxAttempts = 3` and a
response sequence whose first response has status 500 (not 2xx, not
401/403/429) and whose next response is 2xx, `makeApiRequestWithRetry`
retries and returns the 2xx response.  The code instead throws
`Error("HTTP 500")`, which the catch block classifies as a non-retryable
error: it returns `null` after a single request. -/
theorem c1_counterexample :
    Helper.makeApiRequestWithRetry 3 Helper.c1Outcomes ≠
      ⟨some 200, 2⟩ ∧
    Helper.makeApiRequestWithRetry 3 Helper.c1Outcomes = ⟨none, 1⟩ := by
  decide

/-- C1 (amended): whenever the first response has a status that is not 2xx
and is none of 401, 403 or 429 (e.g. 500 or 404), `makeApiRequestWithRetry`
does NOT retry: it returns `null` immediately, having issued exactly one
request, for every attempt budget `maxRetries ≥ 1`. -/
theorem c1_other_status_returns_null_immediately
    (maxRetries : Nat) (outcomes : Nat → Helper.FetchOutcome) (s : Nat)
    (hmr : 1 ≤ maxRetries)
    (h0 : outcomes 0 = .resp s)
    (hok : Helper.statusOk s = false)
    (h429 : s ≠ 429) (h403 : s ≠ 403) (h401 : s ≠ 401) :
    Helper.makeApiRequestWithRetry maxRetries outcomes = ⟨none, 1⟩ := by
  obtain ⟨m, rfl⟩ : ∃ m, maxRetries = m + 1 := ⟨maxRetries - 1, (Nat.succ_pred_eq_of_pos hmr).symm⟩
  simp [Helper.makeApiRequestWithRetry, Helper.retryLoop, h0, h429, h403, h401, hok]

/-- Witness for the amended C1 at a concrete input: budget 3, first response
a 500. -/
theorem c1_other_status_witness :
    Helper.makeApiRequestWithRetry 3 Helper.c1Outcomes = ⟨none, 1⟩ :=
  c1_other_status_returns_null_immediately 3 Helper.c1Outcomes 500
    (by decide) (by decide) (by decide) (by decide) (by decide) (by decide)

/-- C2: for every attempt budget `maxRetries ≥ 1`, when the first response
has status 403 or 401 the function returns `null` immediately, having
issued exactly one request — such a response never triggers a second
attempt, regardless of remaining budget. -/
theorem c2_auth_failure_terminal
    (maxRetries : Nat) (outcomes : Nat → Helper.FetchOutcome)
    (hmr : 1 ≤ maxRetries)
    (h0 : outcomes 0 = .resp 403 ∨ outcomes 0 = .resp 401) :
    Helper.makeApiRequestWithRetry maxRetries outcomes = ⟨none, 1⟩ := by
  obtain ⟨m, rfl⟩ : ∃ m, maxRetries = m + 1 := ⟨maxRetries - 1, (Nat.succ_pred_eq_of_pos hmr).symm⟩
  rcases h0 with h0 | h0 <;>
    simp [Helper.makeApiRequestWithRetry, Helper.retryLoop, h0]

/-- Witness for C2: budget 5, first response a 403. -/
theorem c2_auth_failure_witness :
    Helper.makeApiRequestWithRetry 5 (fun _ => .resp 403) = ⟨none, 1⟩ :=
  c2_auth_failure_terminal 5 (fun _ => .resp 403) (by decide) (Or.inl rfl)

/-! ## Lemmas about the aggregation building blocks -/

namespace Helper

theorem listMin_le_init (x : ℚ) (xs : List ℚ) : listMin x xs ≤ x := by
  induction xs generalizing x with
  | nil => simp [listMin]
  | cons a t ih =>
    simp only [listMin, List.foldl_cons]
    exact le_trans (ih (min x a)) (min_le_left x a)

theorem listMin_le_mem (x : ℚ) (xs : List ℚ) (y : ℚ) (hy : y ∈ xs) : listMin x xs ≤ y := by
  induction xs generalizing x with
  | nil => cases hy
  | cons a t ih =>
    simp only [listMin, List.foldl_cons]
    rcases List.mem_cons.mp hy with rfl | hy
    · exact le_trans (listMin_le_init (min x y) t) (min_le_right x y)
    · exact ih (min x a) hy

theorem init_le_listMax (x : ℚ) (xs : List ℚ) : x ≤ listMax x xs := by
  induction xs generalizing x with
  | nil => simp [listMax]
  | cons a t ih =>
    simp only [listMax, List.foldl_cons]
    exact le_trans (le_max_left x a) (ih (max x a))

theorem mem_le_listMax (x : ℚ) (xs : List ℚ) (y : ℚ) (hy : y ∈ xs) : y ≤ listMax x xs := by
  induction xs generalizing x with
  | nil => cases hy
  | cons a t ih =>
    simp only [listMax, List.foldl_cons]
    rcases List.mem_cons.mp hy with rfl | hy
    · exact le_trans (le_max_right x y) (init_le_listMax (max x y) t)
    · exact ih (max x a) hy

theorem mul_card_le_sum (xs : List ℚ) (m : ℚ) (h : ∀ y ∈ xs, m ≤ y) :
    m * xs.length ≤ xs.sum := by
  induction xs with
  | nil => simp
  | cons a t ih =>
    have h1 : m ≤ a := h a (List.mem_cons_self a t)
    have h2 : m * t.length ≤ t.sum := ih fun y hy => h y (List.mem_cons_of_mem a hy)
    simp only [List.sum_cons, List.length_cons]
    push_cast
    nlinarith

theorem sum_le_mul_card (xs : List ℚ) (m : ℚ) (h : ∀ y ∈ xs, y ≤ m) :
    xs.sum ≤ m * xs.length := by
  induction xs with
  | nil => simp
  | cons a t ih =>
    have h1 : a ≤ m := h a (List.mem_cons_self a t)
    have h2 : t.sum ≤ m * t.length := ih fun y hy => h y (List.mem_cons_of_mem a hy)
    simp only [List.sum_cons, List.length_cons]
    push_cast
    nlinarith

theorem listMin_le_avg (y : ℚ) (ys : List ℚ) :
    listMin y ys ≤ (y :: ys).sum / (((y :: ys).length : ℕ) : ℚ) := by
  have hlen : (0 : ℚ) < (((y :: ys).length : ℕ) : ℚ) := by
    simp only [List.length_cons]; positivity
  rw [le_div_iff₀ hlen]
  refine mul_card_le_sum (y :: ys) _ fun z hz => ?_
  rcases List.mem_cons.mp hz with rfl | hz
  · exact listMin_le_init z ys
  · exact listMin_le_mem y ys z hz

theorem avg_le_listMax (y : ℚ) (ys : List ℚ) :
    (y :: ys).sum / (((y :: ys).length : ℕ) : ℚ) ≤ listMax y ys := by
  have hlen : (0 : ℚ) < (((y :: ys).length : ℕ) : ℚ) := by
    simp only [List.length_cons]; positivity
  rw [div_le_iff₀ hlen]
  refine sum_le_mul_card (y :: ys) _ fun z hz => ?_
  rcases List.mem_cons.mp hz with rfl | hz
  · exact init_le_listMax z ys
  · exact mem_le_listMax y ys z hz

theorem round1_mono {a b : ℚ} (h : a ≤ b) : round1 a ≤ round1 b := by
  unfold round1 jsRound
  have hf : (⌊a * 10 + 1 / 2⌋ : ℤ) ≤ ⌊b * 10 + 1 / 2⌋ := Int.floor_mono (by linarith)
  have hc : ((⌊a * 10 + 1 / 2⌋ : ℤ) : ℚ) ≤ ((⌊b * 10 + 1 / 2⌋ : ℤ) : ℚ) := by exact_mod_cast hf
  gcongr

/-- Projection of the `temperature.min` field of `dailyFromBucket`. -/
theorem dailyFromBucket_min (d : Int) (s : ForecastSample) (ss : List ForecastSample) :
    (dailyFromBucket d s ss).temperature.min = round1 (listMin s.temp (ss.map (·.temp))) := rfl

/-- Projection of the `temperature.max` field of `dailyFromBucket`. -/
theorem dailyFromBucket_max (d : Int) (s : ForecastSample) (ss : List ForecastSample) :
    (dailyFromBucket d s ss).temperature.max = round1 (listMax s.temp (ss.map (·.temp))) := rfl

/-- Projection of the `temperature.day` field of `dailyFromBucket`. -/
theorem dailyFromBucket_day (d : Int) (s : ForecastSample) (ss : List ForecastSample) :
    (dailyFromBucket d s ss).temperature.day
      = round1 ((s.temp :: ss.map (·.temp)).sum
          / (((s.temp :: ss.map (·.temp)).length : ℕ) : ℚ)) := rfl

/-- Projection of the `precipitation` field of `dailyFromBucket`. -/
theorem dailyFromBucket_precipitation (d : Int) (s : ForecastSample) (ss : List ForecastSample) :
    (dailyFromBucket d s ss).precipitation
      = (s :: ss).foldl (fun sum i => sum + i.rain3h.getD 0) 0 := rfl

theorem foldl_add_eq_sum (g : ForecastSample → ℚ) (c : ℚ) (xs : List ForecastSample) :
    xs.foldl (fun sum i => sum + g i) c = c + (xs.map g).sum := by
  induction xs generalizing c with
  | nil => simp
  | cons a t ih =>
    simp only [List.foldl_cons, List.map_cons, List.sum_cons, ih]
    ring

theorem foldl_addSample_same (d : Int) (s : ForecastSample)
    (acc rest : List ForecastSample) (h : ∀ x ∈ rest, dayNumber x.dt = d) :
    List.foldl addSample [(d, s, acc)] rest = [(d, s, acc ++ rest)] := by
  induction rest generalizing acc with
  | nil => simp
  | cons a t ih =>
    have ha : dayNumber a.dt = d := h a (List.mem_cons_self a t)
    have ht : ∀ x ∈ t, dayNumber x.dt = d := fun x hx => h x (List.mem_cons_of_mem a hx)
    have hstep : addSample [(d, s, acc)] a = [(d, s, acc ++ [a])] := by
      simp [addSample, ha]
    simp only [List.foldl_cons, hstep, ih (acc ++ [a]) ht, List.append_assoc,
      List.singleton_append]

theorem groupByDay_single (d : Int) (s : ForecastSample) (ss : List ForecastSample)
    (hs : dayNumber s.dt = d) (hss : ∀ x ∈ ss, dayNumber x.dt = d) :
    groupByDay (s :: ss) = [(d, s, ss)] := by
  have hfirst : addSample [] s = [(d, s, [])] := by simp [addSample, hs]
  simp only [groupByDay, List.foldl_cons, hfirst]
  simpa using foldl_addSample_same d s [] ss hss

end Helper

/-! ## C3: single-day forecast aggregation -/

/-- C3: for every non-empty list of intraday samples all falling on the same
UTC calendar day (and any requested day budget ≥ 1), `getWeatherData`
produces exactly one `DailyForecast`; its temperature summary satisfies
`min ≤ day ≤ max` (where `day` is the rounded mean) and its precipitation
equals the sum (not the average) of every sample's 3-hour precipitation
contribution. -/
theorem c3_single_day_aggregation
    (lat lon : ℚ) (days : Int) (city country : Option String)
    (s : Helper.ForecastSample) (ss : List Helper.ForecastSample)
    (hdays : 1 ≤ days)
    (hsame : ∀ x ∈ s :: ss, Helper.dayNumber x.dt = Helper.dayNumber s.dt) :
    (Helper.getWeatherData lat lon days
        (some (.ok ⟨some (s :: ss), city, country⟩))).forecasts
      = [Helper.dailyFromBucket (Helper.dayNumber s.dt) s ss] ∧
    (Helper.dailyFromBucket (Helper.dayNumber s.dt) s ss).temperature.min
      ≤ (Helper.dailyFromBucket (Helper.dayNumber s.dt) s ss).temperature.day ∧
    (Helper.dailyFromBucket (Helper.dayNumber s.dt) s ss).temperature.day
      ≤ (Helper.dailyFromBucket (Helper.dayNumber s.dt) s ss).temperature.max ∧
    (Helper.dailyFromBucket (Helper.dayNumber s.dt) s ss).precipitation
      = ((s :: ss).map (fun i => i.rain3h.getD 0)).sum := by
  refine ⟨?_, ?_, ?_, ?_⟩
  · have hg := Helper.groupByDay_single (Helper.dayNumber s.dt) s ss rfl
      (fun x hx => hsame x (List.mem_cons_of_mem s hx))
    obtain ⟨m, hm⟩ : ∃ m, days.toNat = m + 1 := ⟨days.toNat - 1, by omega⟩
    simp [Helper.getWeatherData, hg, hm]
  · rw [Helper.dailyFromBucket_min, Helper.dailyFromBucket_day]
    apply Helper.round1_mono
    apply Helper.listMin_le_avg
  · rw [Helper.dailyFromBucket_max, Helper.dailyFromBucket_day]
    apply Helper.round1_mono
    apply Helper.avg_le_listMax
  · rw [Helper.dailyFromBucket_precipitation, Helper.foldl_add_eq_sum, zero_add]

/-- Witness for C3 at a concrete two-sample day: samples at 00:00 and 03:00
of the epoch day, temperatures 10 and 20, rain contributions 2 and none. -/
theorem c3_witness :
    (Helper.getWeatherData 0 0 7
        (some (.ok ⟨some [⟨0, 10, 9, 1000, 50, none, none, none, none, none, none, some 2, none⟩,
                          ⟨10800, 20, 18, 1001, 60, none, none, none, none, none, none, none, none⟩],
                    none, none⟩))).forecasts
      = [Helper.dailyFromBucket 0
          ⟨0, 10, 9, 1000, 50, none, none, none, none, none, none, some 2, none⟩
          [⟨10800, 20, 18, 1001, 60, none, none, none, none, none, none, none, none⟩]] ∧
    (Helper.dailyFromBucket 0
          ⟨0, 10, 9, 1000, 50, none, none, none, none, none, none, some 2, none⟩
          [⟨10800, 20, 18, 1001, 60, none, none, none, none, none, none, none, none⟩]).temperature.min
      ≤ (Helper.dailyFromBucket 0
          ⟨0, 10, 9, 1000, 50, none, none, none, none, none, none, some 2, none⟩
          [⟨10800, 20, 18, 1001, 60, none, none, none, none, none, none, none, none⟩]).temperature.day ∧
    (Helper.dailyFromBucket 0
          ⟨0, 10, 9, 1000, 50, none, none, none, none, none, none, some 2, none⟩
          [⟨10800, 20, 18, 1001, 60, none, none, none, none, none, none, none, none⟩]).temperature.day
      ≤ (Helper.dailyFromBucket 0
          ⟨0, 10, 9, 1000, 50, none, none, none, none, none, none, some 2, none⟩
          [⟨10800, 20, 18, 1001, 60, none, none, none, none, none, none, none, none⟩]).temperature.max ∧
    (Helper.dailyFromBucket 0
          ⟨0, 10, 9, 1000, 50, none, none, none, none, none, none, some 2, none⟩
          [⟨10800, 20, 18, 1001, 60, none, none, none, none, none, none, none, none⟩]).precipitation
      = (([⟨0, 10, 9, 1000, 50, none, none, none, none, none, none, some 2, none⟩,
           ⟨10800, 20, 18, 1001, 60, none, none, none, none, none, none, none, none⟩] :
            List Helper.ForecastSample).map (fun i => i.rain3h.getD 0)).sum :=
  c3_single_day_aggregation 0 0 7 none none
    ⟨0, 10, 9, 1000, 50, none, none, none, none, none, none, some 2, none⟩
    [⟨10800, 20, 18, 1001, 60, none, none, none, none, none, none, none, none⟩]
    (by decide) (by decide)

/-! ## C10: `days_count` invariant of `getWeatherData` -/

/-- C10: on every return path of `getWeatherData` — fetch failure after
retries, thrown processing error, 2xx payload with no sample list, and
successful aggregation — the returned `days_count` equals
`forecasts.length`, and (for a non-negative requested day budget) the
number of forecasts never exceeds the requested days. -/
theorem c10_days_count_eq_forecasts_length
    (lat lon : ℚ) (days : Int) (response : Option (Except String Helper.ForecastPayload))
    (hdays : 0 ≤ days) :
    (Helper.getWeatherData lat lon days response).days_count
      = (Helper.getWeatherData lat lon days response).forecasts.length ∧
    ((Helper.getWeatherData lat lon days response).forecasts.length : Int) ≤ days := by
  cases response with
  | none => exact ⟨rfl, by simpa [Helper.getWeatherData] using hdays⟩
  | some r =>
    cases r with
    | error e => exact ⟨rfl, by simpa [Helper.getWeatherData] using hdays⟩
    | ok data =>
      cases hl : data.list with
      | none => exact ⟨by simp [Helper.getWeatherData, hl], by simpa [Helper.getWeatherData, hl] using hdays⟩
      | some items =>
        refine ⟨by simp [Helper.getWeatherData, hl], ?_⟩
        simp only [Helper.getWeatherData, hl, List.length_map, List.length_take]
        omega

/-- Witness for C10 at a concrete input: the fetch-failure path with a
3-day request. -/
theorem c10_witness :
    (Helper.getWeatherData 1 2 3 none).days_count
      = (Helper.getWeatherData 1 2 3 none).forecasts.length ∧
    ((Helper.getWeatherData 1 2 3 none).forecasts.length : Int) ≤ 3 :=
  c10_days_count_eq_forecasts_length 1 2 3 none (by decide)

/-! ## C4: visibility classification -/

/-- C4: for every matched forecast, the derived visibility status equals the
reference classification ("Not Visible" iff at least 3 adverse flags, or the
heavy-snow flag, or both the poor-weather and high-cloud flags; else
"Low Visibility" iff at least one flag; else "Good"); in particular
clouds=0, humidity=0, precipitation=0, snow=0 with a clear descriptor
yields "Good", and descriptor "rain" with clouds=50 yields "Not Visible". -/
theorem c4_visibility_matches_reference :
    (∀ (weatherMain : Option String) (clouds humidity precipitation snow : ℚ),
      (Helper.visibilityVerdictOf weatherMain clouds humidity precipitation snow).1
        = Helper.specVisibilityStatus weatherMain clouds humidity precipitation snow) ∧
    (Helper.visibilityVerdictOf (some "Clear") 0 0 0 0).1 = "Good" ∧
    (Helper.visibilityVerdictOf (some "Rain") 50 0 0 0).1 = "Not Visible" := by
  refine ⟨?_, ?_, ?_⟩
  · intro wm clouds humidity precipitation snow
    simp only [Helper.visibilityVerdictOf, Helper.specVisibilityStatus]
    cases hbw : Helper.badWeatherMains.contains (Helper.jsToLower (wm.getD "")) <;>
      cases hc : decide (clouds > 30) <;>
        cases hh : decide (humidity > 80) <;>
          cases hp : decide (precipitation > 5) <;>
            cases hs : decide (snow > 5) <;>
              simp
  · decide
  · decide

/-! ## C5: past-date roll-forward -/

/-- C5 (counterexample): the claim says the roll-forward moves the parsed
date forward exactly one year.  The code instead sets the year to
`now.getFullYear() + 1`.  The string "Jan 1 99" contains no 4-digit
substring and parses (per the V8 `Date` parser) to 1999-01-01; with "now"
at 2026-10-12 the code resolves it to 2027-01-01, not to 2000-01-01 (one
year after the parsed date). -/
theorem c5_counterexample :
    Helper.resolveTargetDate ⟨1999, 0, 1, 0⟩ ⟨2026, 9, 12, 0⟩ "Jan 1 99"
        = ⟨2027, 0, 1, 0⟩ ∧
      Helper.resolveTargetDate ⟨1999, 0, 1, 0⟩ ⟨2026, 9, 12, 0⟩ "Jan 1 99"
        ≠ Helper.setFullYear ⟨1999, 0, 1, 0⟩ (1999 + 1) := by
  decide

/-- C5 (amended): for every parsed date chronologically before "now" whose
source string contains no 4-digit substring, the target date's year is set
to the NEXT calendar year (`now.getFullYear() + 1`), month, day and time
kept — which is a roll-forward of exactly one year precisely when the
parsed date fell in the current year, the case produced by parsing a
year-less date string; and the presence of a 4-digit substring in the
input disables the roll-forward entirely. -/
theorem c5_rolls_to_next_calendar_year (parsed now : Helper.JsDate) (s : String) :
    (parsed.before now = true → Helper.matchesFourDigitYear s = false →
      Helper.resolveTargetDate parsed now s = Helper.setFullYear parsed (now.year + 1)) ∧
    (Helper.matchesFourDigitYear s = true →
      Helper.resolveTargetDate parsed now s = parsed) := by
  constructor
  · intro hpast hnoyear
    simp [Helper.resolveTargetDate, hpast, hnoyear]
  · intro hyear
    simp [Helper.resolveTargetDate, hyear]

/-- Witness for the amended C5: "Jan 1" parsed in 2026 with "now" at
2026-10-12 resolves to year 2027 (= parsed year + 1 here), and "Jan 1 2026"
is left untouched by the roll-forward branch. -/
theorem c5_witness :
    ((⟨2026, 0, 1, 0⟩ : Helper.JsDate).before ⟨2026, 9, 12, 0⟩ = true →
      Helper.matchesFourDigitYear "Jan 1" = false →
      Helper.resolveTargetDate ⟨2026, 0, 1, 0⟩ ⟨2026, 9, 12, 0⟩ "Jan 1"
        = Helper.setFullYear ⟨2026, 0, 1, 0⟩ ((2026 : Int) + 1)) ∧
    (Helper.matchesFourDigitYear "Jan 1" = true →
      Helper.resolveTargetDate ⟨2026, 0, 1, 0⟩ ⟨2026, 9, 12, 0⟩ "Jan 1"
        = ⟨2026, 0, 1, 0⟩) :=
  c5_rolls_to_next_calendar_year ⟨2026, 0, 1, 0⟩ ⟨2026, 9, 12, 0⟩ "Jan 1"

/-! ## C9: identity and symmetry of the haversine distance -/

/-- C9: for all coordinate pairs with valid latitudes and longitudes, the
great-circle distance of a point to itself is `0`, and the distance is
symmetric in its two endpoints. -/
theorem c9_distance_zero_and_symmetric
    (lat1 lon1 lat2 lon2 : ℝ)
    (h1 : -90 ≤ lat1 ∧ lat1 ≤ 90) (h2 : -180 ≤ lon1 ∧ lon1 ≤ 180)
    (h3 : -90 ≤ lat2 ∧ lat2 ≤ 90) (h4 : -180 ≤ lon2 ∧ lon2 ≤ 180) :
    Helper.calculateDistance lat1 lon1 lat1 lon1 = 0 ∧
    Helper.calculateDistance lat1 lon1 lat2 lon2
      = Helper.calculateDistance lat2 lon2 lat1 lon1 := by
  constructor
  · simp [Helper.calculateDistance, Helper.toRad, Helper.atan2, Real.arctan_zero]
  · have e1 : Real.sin (Helper.toRad (lat1 - lat2) / 2) ^ 2
        = Real.sin (Helper.toRad (lat2 - lat1) / 2) ^ 2 := by
      have h : Helper.toRad (lat1 - lat2) = -Helper.toRad (lat2 - lat1) := by
        simp only [Helper.toRad]; ring
      rw [h, neg_div, Real.sin_neg, neg_sq]
    have e2 : Real.sin (Helper.toRad (lon1 - lon2) / 2) ^ 2
        = Real.sin (Helper.toRad (lon2 - lon1) / 2) ^ 2 := by
      have h : Helper.toRad (lon1 - lon2) = -Helper.toRad (lon2 - lon1) := by
        simp only [Helper.toRad]; ring
      rw [h, neg_div, Real.sin_neg, neg_sq]
    have e3 : Real.cos (Helper.toRad lat2) * Real.cos (Helper.toRad lat1)
        = Real.cos (Helper.toRad lat1) * Real.cos (Helper.toRad lat2) := mul_comm _ _
    simp only [Helper.calculateDistance]
    rw [e1, e2, e3]

/-- Witness for C9 at the concrete coordinates (10, 20) and (-30, 40). -/
theorem c9_witness :
    Helper.calculateDistance 10 20 10 20 = 0 ∧
    Helper.calculateDistance 10 20 (-30) 40 = Helper.calculateDistance (-30) 40 10 20 :=
  c9_distance_zero_and_symmetric 10 20 (-30) 40
    (by norm_num) (by norm_num) (by norm_num) (by norm_num)

/-! ## C6: distance filtering, rounding and sorting -/

namespace Helper

/-- Characterization of a launch surviving one Step-5 iteration. -/
theorem filterLaunch_eq_some {qlat qlon maxD : ℚ} {lo hi : Int} {a : LaunchIn} {x : LaunchOut}
    (h : filterLaunch qlat qlon maxD lo hi a = some x) :
    ∃ t lat lon, a.net_raw = some t ∧ lo ≤ t ∧ t ≤ hi ∧ a.latitude = some lat ∧
      a.longitude = some lon ∧
      calculateDistance (qlat : ℝ) (qlon : ℝ) (lat : ℝ) (lon : ℝ) ≤ (maxD : ℝ) ∧
      x = ⟨a, round2 (calculateDistance (qlat : ℝ) (qlon : ℝ) (lat : ℝ) (lon : ℝ))⟩ := by
  unfold filterLaunch at h
  split at h
  · cases h
  · rename_i t hnr
    split at h
    · rename_i hw
      split at h
      · rename_i lat lon hlat hlon
        dsimp only at h
        split at h
        · rename_i hd
          cases h
          exact ⟨t, lat, lon, hnr, hw.1, hw.2, hlat, hlon, hd, rfl⟩
        · cases h
      · cases h
    · cases h

/-- `calculateDistance` with its `let` bindings unfolded. -/
theorem calculateDistance_eval (lat1 lon1 lat2 lon2 : ℝ) :
    calculateDistance lat1 lon1 lat2 lon2
      = 6371 * (2 * atan2
          (Real.sqrt (Real.sin (toRad (lat2 - lat1) / 2) ^ 2 +
            Real.cos (toRad lat1) * Real.cos (toRad lat2) *
              Real.sin (toRad (lon2 - lon1) / 2) ^ 2))
          (Real.sqrt (1 - (Real.sin (toRad (lat2 - lat1) / 2) ^ 2 +
            Real.cos (toRad lat1) * Real.cos (toRad lat2) *
              Real.sin (toRad (lon2 - lon1) / 2) ^ 2)))) := rfl

/-- The distance from (0°, 0°) to (2°N, 0°) in this model: two degrees of
arc on the Earth sphere, `6371 · π/90` km (≈ 222.38986 km). -/
theorem calculateDistance_two_degrees :
    calculateDistance 0 0 2 0 = 6371 * (Real.pi / 90) := by
  have hπ := Real.pi_pos
  have hθpos : (0 : ℝ) < Real.pi / 180 := by positivity
  have hθlt : Real.pi / 180 < Real.pi / 2 := by nlinarith
  have hcos_pos : 0 < Real.cos (Real.pi / 180) :=
    Real.cos_pos_of_mem_Ioo ⟨by nlinarith, hθlt⟩
  have hsin_nonneg : 0 ≤ Real.sin (Real.pi / 180) :=
    Real.sin_nonneg_of_nonneg_of_le_pi (le_of_lt hθpos) (by nlinarith)
  rw [calculateDistance_eval]
  have ha : Real.sin (toRad (2 - 0) / 2) ^ 2 +
      Real.cos (toRad 0) * Real.cos (toRad 2) * Real.sin (toRad (0 - 0) / 2) ^ 2
      = Real.sin (Real.pi / 180) ^ 2 := by
    have h1 : toRad (2 - 0) / 2 = Real.pi / 180 := by
      simp only [toRad]; ring
    have h2 : toRad (0 - 0) / 2 = 0 := by
      simp only [toRad]; ring
    rw [h1, h2, Real.sin_zero]
    ring
  rw [ha]
  have hs : Real.sqrt (Real.sin (Real.pi / 180) ^ 2) = Real.sin (Real.pi / 180) :=
    Real.sqrt_sq hsin_nonneg
  have hc : Real.sqrt (1 - Real.sin (Real.pi / 180) ^ 2) = Real.cos (Real.pi / 180) := by
    have h1 : (1 : ℝ) - Real.sin (Real.pi / 180) ^ 2 = Real.cos (Real.pi / 180) ^ 2 := by
      have := Real.sin_sq_add_cos_sq (Real.pi / 180)
      linarith
    rw [h1]
    exact Real.sqrt_sq (le_of_lt hcos_pos)
  rw [hs, hc, atan2, if_pos hcos_pos, ← Real.tan_eq_sin_div_cos,
    Real.arctan_tan (by nlinarith) hθlt]
  ring

/-- Rounding that distance to two decimals rounds UP to 222.39 km. -/
theorem round2_two_degrees : round2 (6371 * (Real.pi / 90)) = 22239 / 100 := by
  unfold round2 jsRoundR
  have h1 : 6371 * (Real.pi / 90) * 100 = 63710 * Real.pi / 9 := by ring
  rw [h1]
  have hfl : ⌊63710 * Real.pi / 9 + 1 / 2⌋ = (22239 : ℤ) := by
    rw [Int.floor_eq_iff]
    constructor
    · have := Real.pi_gt_d6
      push_cast
      linarith
    · have := Real.pi_lt_d6
      push_cast
      linarith
  rw [hfl]
  norm_num

end Helper

/-- C6 (counterexample): the claim says every surviving launch satisfies
`distance_km ≤ maxDistanceKm`.  But the filter compares the UNROUNDED
distance against `maxDistanceKm` and then stores the 2-decimal ROUNDED
value, which can round up past the bound: with the query at (0°, 0°),
one launch at pad (2°N, 0°) with nominal time 5 inside the window
`[0, 10]`, and `maxDistanceKm = 222.3899`, the true distance
`6371·π/90 ≈ 222.38986` passes the filter, but the attached
`distance_km = 222.39 > 222.3899`. -/
theorem c6_counterexample :
    ¬ ∀ x ∈ Helper.sortByDistance (Helper.filterLaunches 0 0 (2223899 / 10000) 0 10
        [⟨"L1", some 5, some 2, some 0⟩]),
      x.distance_km ≤ (((2223899 : ℚ) / 10000 : ℚ) : ℝ) := by
  intro hall
  have hd_le : Helper.calculateDistance ((0 : ℚ) : ℝ) ((0 : ℚ) : ℝ) ((2 : ℚ) : ℝ) ((0 : ℚ) : ℝ)
      ≤ (((2223899 : ℚ) / 10000 : ℚ) : ℝ) := by
    push_cast
    rw [Helper.calculateDistance_two_degrees]
    have := Real.pi_lt_d6
    linarith
  have hfl : Helper.filterLaunch 0 0 (2223899 / 10000) 0 10 ⟨"L1", some 5, some 2, some 0⟩
      = some ⟨⟨"L1", some 5, some 2, some 0⟩,
          Helper.round2 (Helper.calculateDistance ((0 : ℚ) : ℝ) ((0 : ℚ) : ℝ)
            ((2 : ℚ) : ℝ) ((0 : ℚ) : ℝ))⟩ := by
    unfold Helper.filterLaunch
    dsimp only
    rw [if_pos (by norm_num : (0 : Int) ≤ 5 ∧ (5 : Int) ≤ 10), if_pos hd_le]
  have hmem : (⟨⟨"L1", some 5, some 2, some 0⟩,
      Helper.round2 (Helper.calculateDistance ((0 : ℚ) : ℝ) ((0 : ℚ) : ℝ)
        ((2 : ℚ) : ℝ) ((0 : ℚ) : ℝ))⟩ : Helper.LaunchOut)
      ∈ Helper.sortByDistance (Helper.filterLaunches 0 0 (2223899 / 10000) 0 10
          [⟨"L1", some 5, some 2, some 0⟩]) := by
    simp [Helper.sortByDistance, Helper.filterLaunches, hfl]
  have hx := hall _ hmem
  have hcast : Helper.calculateDistance ((0 : ℚ) : ℝ) ((0 : ℚ) : ℝ) ((2 : ℚ) : ℝ) ((0 : ℚ) : ℝ)
      = Helper.calculateDistance 0 0 2 0 := by push_cast; rfl
  rw [hcast] at hx
  simp only [Helper.calculateDistance_two_degrees, Helper.round2_two_degrees] at hx
  have : ((2223899 : ℚ) / 10000 : ℚ) < ((22239 : ℝ) / 100 : ℝ) := by
    push_cast
    norm_num
  push_cast at hx this
  linarith

/-- C6 (amended): in every `findNearbyLaunches` result the launches list is
sorted ascending by `distance_km`; every surviving launch has a nominal
time inside the active window and a known pad coordinate, carries
`distance_km` equal to the great-circle distance rounded to 2 decimals,
and its UNROUNDED great-circle distance is at most `maxDistanceKm` (the
rounded `distance_km` itself can exceed `maxDistanceKm` by up to 0.005,
since the filter tests the unrounded value and then rounds). -/
theorem c6_sorted_and_within_distance (qlat qlon maxD : ℚ) (lo hi : Int)
    (ls : List Helper.LaunchIn) :
    List.Sorted Helper.launchLE
      (Helper.sortByDistance (Helper.filterLaunches qlat qlon maxD lo hi ls)) ∧
    ∀ x ∈ Helper.sortByDistance (Helper.filterLaunches qlat qlon maxD lo hi ls),
      x.launch ∈ ls ∧
      ∃ t lat lon, x.launch.net_raw = some t ∧ lo ≤ t ∧ t ≤ hi ∧
        x.launch.latitude = some lat ∧ x.launch.longitude = some lon ∧
        Helper.calculateDistance (qlat : ℝ) (qlon : ℝ) (lat : ℝ) (lon : ℝ) ≤ (maxD : ℝ) ∧
        x.distance_km
          = Helper.round2 (Helper.calculateDistance (qlat : ℝ) (qlon : ℝ) (lat : ℝ) (lon : ℝ)) := by
  constructor
  · exact List.sorted_insertionSort Helper.launchLE _
  · intro x hx
    rw [Helper.sortByDistance,
      (List.perm_insertionSort Helper.launchLE _).mem_iff] at hx
    obtain ⟨a, ha, hf⟩ := List.mem_filterMap.mp hx
    obtain ⟨t, lat, lon, hnr, h1, h2, hlat, hlon, hd, rfl⟩ := Helper.filterLaunch_eq_some hf
    exact ⟨ha, t, lat, lon, hnr, h1, h2, hlat, hlon, hd, rfl⟩

/-- Witness for the amended C6 at a concrete input: a single launch with no
nominal time is excluded, leaving the empty (sorted) list. -/
theorem c6_witness :
    List.Sorted Helper.launchLE
      (Helper.sortByDistance (Helper.filterLaunches 1 2 1000 0 10 [⟨"w", none, some 3, some 4⟩])) ∧
    ∀ x ∈ Helper.sortByDistance (Helper.filterLaunches 1 2 1000 0 10 [⟨"w", none, some 3, some 4⟩]),
      x.launch ∈ [(⟨"w", none, some 3, some 4⟩ : Helper.LaunchIn)] ∧
      ∃ t lat lon, x.launch.net_raw = some t ∧ 0 ≤ t ∧ t ≤ 10 ∧
        x.launch.latitude = some lat ∧ x.launch.longitude = some lon ∧
        Helper.calculateDistance ((1 : ℚ) : ℝ) ((2 : ℚ) : ℝ) (lat : ℝ) (lon : ℝ) ≤ ((1000 : ℚ) : ℝ) ∧
        x.distance_km
          = Helper.round2 (Helper.calculateDistance ((1 : ℚ) : ℝ) ((2 : ℚ) : ℝ) (lat : ℝ) (lon : ℝ)) :=
  c6_sorted_and_within_distance 1 2 1000 0 10 [⟨"w", none, some 3, some 4⟩]

/-! ## C7 and C8: pipeline error shape and the bulk weather block -/

namespace Helper

/-- What `assembleNearby` guarantees about any success record it produces:
`launches_found` counts the launches, and the bulk `weather` block is
present iff no launch survived. -/
theorem assembleNearby_weather_iff {locData maxD daysAhead active weatherData launches lo hi}
    {loc' : GeocodeResult} {maxD' : ℚ} {da' : Int} {found : Nat}
    {ls : List DecoratedLaunch} {w : Option WeatherForecastResult} {act : Bool}
    (h : assembleNearby locData maxD daysAhead active weatherData launches lo hi
      = .success loc' maxD' da' found ls w act) :
    (w.isSome ↔ ls = []) ∧ found = ls.length := by
  unfold assembleNearby at h
  cases h
  refine ⟨?_, rfl⟩
  by_cases hlen :
    (List.map (decorateLaunch weatherData.forecasts)
      (sortByDistance (filterLaunches locData.latitude locData.longitude maxD lo hi launches))).length = 0
  · simp [hlen, List.length_eq_zero.mp hlen]
  · simp only [hlen, if_false, Option.isSome_none, Bool.false_eq_true, false_iff]
    intro hL
    exact hlen (by simp [hL])

end Helper

/-- C7: when the Geocoder fails (returns null), `findNearbyLaunches`
returns exactly the object `{error: "Location not found: <placeName>",
location: <placeName>}`; and the pipeline never raises — it is a total
function into result objects, and every error object it can produce
carries the original location string. -/
theorem c7_location_not_found
    (location : String) (maxD : ℚ) (daysAhead : Int) (specificDate : Option String)
    (env : Helper.NearbyEnv) :
    (env.geocode = none →
      Helper.getNearbyLaunches location maxD daysAhead specificDate env
        = .failure ("Location not found: " ++ location) location) ∧
    (∀ e loc, Helper.getNearbyLaunches location maxD daysAhead specificDate env
        = .failure e loc → loc = location) := by
  constructor
  · intro hg
    simp [Helper.getNearbyLaunches, hg]
  · intro e loc h
    unfold Helper.getNearbyLaunches at h
    split at h
    · cases h
      rfl
    · split at h
      · dsimp only at h
        exact absurd h (by unfold Helper.assembleNearby; simp)
      · split at h
        · cases h
          rfl
        · dsimp only at h
          exact absurd h (by unfold Helper.assembleNearby; simp)

/-- Witness for C7: the unresolvable location "Atlantis". -/
theorem c7_witness :
    ((⟨none, none, ⟨2026, 0, 1, 0⟩, 0, fun _ => 0, none, []⟩ : Helper.NearbyEnv).geocode = none →
      Helper.getNearbyLaunches "Atlantis" 1000 7 none
          ⟨none, none, ⟨2026, 0, 1, 0⟩, 0, fun _ => 0, none, []⟩
        = .failure ("Location not found: " ++ "Atlantis") "Atlantis") ∧
    (∀ e loc, Helper.getNearbyLaunches "Atlantis" 1000 7 none
          ⟨none, none, ⟨2026, 0, 1, 0⟩, 0, fun _ => 0, none, []⟩
        = .failure e loc → loc = "Atlantis") :=
  c7_location_not_found "Atlantis" 1000 7 none
    ⟨none, none, ⟨2026, 0, 1, 0⟩, 0, fun _ => 0, none, []⟩

/-- C8: in every successful `findNearbyLaunches` result, the standalone
weather block is present iff zero launches survived filtering, and
`launches_found` is the number of returned launches. -/
theorem c8_weather_iff_no_launches
    (location : String) (maxD : ℚ) (daysAhead : Int) (specificDate : Option String)
    (env : Helper.NearbyEnv)
    (locData : Helper.GeocodeResult) (maxD' : ℚ) (daysAhead' : Int) (found : Nat)
    (launches : List Helper.DecoratedLaunch) (weather : Option Helper.WeatherForecastResult)
    (active : Bool)
    (h : Helper.getNearbyLaunches location maxD daysAhead specificDate env
      = .success locData maxD' daysAhead' found launches weather active) :
    (weather.isSome ↔ launches = []) ∧ found = launches.length := by
  unfold Helper.getNearbyLaunches at h
  split at h
  · cases h
  · split at h
    · dsimp only at h
      exact Helper.assembleNearby_weather_iff h
    · split at h
      · cases h
      · dsimp only at h
        exact Helper.assembleNearby_weather_iff h

/-- Witness for C8 at a concrete environment: geocode succeeds, the launch
feed is empty, so zero launches survive and the bulk weather block is
attached. -/
theorem c8_witness :
    ((some (Helper.getWeatherData 0 0 7 none)).isSome
        ↔ ([] : List Helper.DecoratedLaunch) = []) ∧
    (0 : Nat) = ([] : List Helper.DecoratedLaunch).length :=
  c8_weather_iff_no_launches "X" 1000 7 none
    ⟨some ⟨"X", "X", 0, 0, "US", "N/A"⟩, none, ⟨2026, 0, 1, 0⟩, 0, fun _ => 0, none, []⟩
    ⟨"X", "X", 0, 0, "US", "N/A"⟩ 1000 7 0 [] (some (Helper.getWeatherData 0 0 7 none)) false rfl
